import Mathlib

/-!
Verification of the autoclerk-FE backend (Python) against its natural-language
specification.  The Python source is shallowly embedded: each relevant Python
function becomes a Lean definition; exceptions are modelled with `Except`;
the external Google / LLM services are modelled as explicit environment
parameters recording the outcome of each outbound call; the sequence of
outbound calls a handler makes is returned as an explicit trace.
-/

/-- Model of a dynamically-typed Python value as it appears in the JSON
payloads this code manipulates (spreadsheet cells, tool arguments). -/
inductive PyVal where
  | str (s : String)
  | int (n : Int)
  | none
deriving DecidableEq, Repr

/-- Model of Python `str(v)` on the values above. -/
def pyStr : PyVal → String
  | .str s => s
  | .int n => toString n
  | .none => "None"

/-! ## Gmail message payloads (`src/agent/tools/gmail/gmail_tools.py`)

A Gmail API `payload` object is a MIME part: a mime type, an optional
`body.data` field (base64url content; `Option` models key absence), and an
optional `parts` list (`Option` models absence of the `parts` key, so that
`some []` is a present-but-empty list, exactly as in the Python `dict`). -/

inductive MimePart where
  | mk (mimeType : String) (data : Option String) (parts : Option (List MimePart))

/-- Field accessor for `part['mimeType']`. -/
def MimePart.mimeType : MimePart → String
  | .mk t _ _ => t

/-- Field accessor for `part['body']['data']` (`none` when the key is absent). -/
def MimePart.data : MimePart → Option String
  | .mk _ d _ => d

/-- Field accessor for `part['parts']` (`none` when the key is absent). -/
def MimePart.subparts : MimePart → Option (List MimePart)
  | .mk _ _ p => p

/-- Embeds the `for part in payload['parts']` loop of `extract_email_body`
(gmail_tools.py lines 90-98).  `body` is the loop accumulator (initially
`""`).  A `text/plain` part carrying `data` assigns and `break`s; a
`text/html` part assigns only when the accumulator is still falsy (empty)
and does not break.  The loop looks only at the immediate elements of the
list: the Python code never recurses into `part['parts']`.
`decode` stands for `base64.urlsafe_b64decode(.).decode('utf-8')`, which is
library code. -/
def extractLoop (decode : String → String) (body : String) : List MimePart → String
  | [] => body
  | p :: rest =>
    if p.mimeType = "text/plain" then
      match p.data with
      | some d => decode d
      | Option.none => extractLoop decode body rest
    else if p.mimeType = "text/html" ∧ body = "" then
      match p.data with
      | some d => extractLoop decode (decode d) rest
      | Option.none => extractLoop decode body rest
    else
      extractLoop decode body rest

/-- Embeds `extract_email_body(payload)` (gmail_tools.py lines 86-104). -/
def extract_email_body (decode : String → String) (payload : MimePart) : String :=
  match payload.subparts with
  | some ps => extractLoop decode "" ps
  | Option.none =>
    if payload.mimeType = "text/plain" || payload.mimeType = "text/html" then
      match payload.data with
      | some d => decode d
      | Option.none => ""
    else ""

/-- Position of the first immediate part that is `text/plain` and carries
`data`; returns that data. -/
def firstPlainData : List MimePart → Option String
  | [] => Option.none
  | p :: rest =>
    if p.mimeType = "text/plain" ∧ p.data.isSome then p.data
    else firstPlainData rest

/-- Data of the first immediate part that is `text/html` and carries `data`. -/
def firstHtmlData : List MimePart → Option String
  | [] => Option.none
  | p :: rest =>
    if p.mimeType = "text/html" ∧ p.data.isSome then p.data
    else firstHtmlData rest

/-! ## OAuth credential lifecycle (`src/agent/tools/google_auth.py`)

The stored `token.json` is modelled as `Option TokenData` (`none` when the
file does not exist).  The Google `Credentials` object built by
`Credentials.from_authorized_user_info(creds_data, scopes)` is modelled by
`Credentials`; per that library constructor, the object's `scopes` attribute
is set to the scopes argument that the caller passes (the stored scopes are
only consulted when the argument is omitted, which this code never does),
and no comparison between stored and requested scopes is performed.
The `valid` property of a credentials object is `token is not None and not
expired`; `expired` compares the expiry timestamp with the current time (the
library's small clock-skew allowance is folded into the `now` parameter).
The refresh exchange is an outbound network call, modelled by an
environment parameter `Option RefreshGrant` (`none` when the exchange
raises).  Every run returns the trace of refresh/persist effects. -/

def DOCS_SCOPES : List String :=
  ["https://www.googleapis.com/auth/documents",
   "https://www.googleapis.com/auth/drive.readonly"]

def GMAIL_SCOPES : List String :=
  ["https://www.googleapis.com/auth/gmail.send",
   "https://www.googleapis.com/auth/gmail.readonly"]

def SHEETS_SCOPES : List String :=
  ["https://www.googleapis.com/auth/spreadsheets",
   "https://www.googleapis.com/auth/drive.readonly"]

/-- Combined scope set, `list(set(DOCS + GMAIL + SHEETS))` in the source.
Python's `set` fixes no order, so only membership in this list is meaningful;
we deduplicate the concatenation. -/
def ALL_SCOPES : List String := (DOCS_SCOPES ++ GMAIL_SCOPES ++ SHEETS_SCOPES).dedup

/-- Parsed content of the persisted `token.json`. -/
structure TokenData where
  token : Option String
  refresh_token : Option String
  expiry : Option Nat
  scopes : List String
deriving DecidableEq, Repr

/-- Model of the `google.oauth2.credentials.Credentials` object. -/
structure Credentials where
  token : Option String
  refresh_token : Option String
  expiry : Option Nat
  scopes : List String
deriving DecidableEq, Repr

/-- Embeds `Credentials.from_authorized_user_info(creds_data, scopes)`:
the token material comes from the file, the `scopes` attribute is the
requested scope list.  No scope comparison happens here. -/
def fromAuthorizedUserInfo (info : TokenData) (requestedScopes : List String) :
    Credentials :=
  { token := info.token, refresh_token := info.refresh_token,
    expiry := info.expiry, scopes := requestedScopes }

/-- Embeds the `expired` property: false when no expiry is recorded,
otherwise true once `now` has reached the expiry instant. -/
def credExpired (now : Nat) (c : Credentials) : Bool :=
  match c.expiry with
  | some t => decide (t ≤ now)
  | Option.none => false

/-- Embeds the `valid` property: `token is not None and not expired`. -/
def credValid (now : Nat) (c : Credentials) : Bool :=
  c.token.isSome && !(credExpired now c)

/-- Token-endpoint response to a refresh exchange. -/
structure RefreshGrant where
  token : String
  expiry : Option Nat
  refresh_token : Option String
deriving DecidableEq, Repr

/-- Effect of `creds.refresh(Request())` on the credentials object when the
exchange succeeds: new access token and expiry; the refresh token is replaced
only if the response carries one. -/
def applyRefresh (c : Credentials) (g : RefreshGrant) : Credentials :=
  { c with
    token := some g.token
    expiry := g.expiry
    refresh_token := g.refresh_token.orElse (fun _ => c.refresh_token) }

/-- Observable effects of a credential load: a refresh exchange, or a write
of the credentials file (`save_credentials`). -/
inductive AuthEvent where
  | refreshCall
  | saveFile (c : Credentials)
deriving DecidableEq, Repr

/-- Embeds `get_stored_credentials(scopes)` (google_auth.py lines 26-65).
`tokenFile` is the persisted bundle (`none`: file absent), `refreshOutcome`
the environment's answer to the refresh exchange (`none`: the exchange
raises, which the inner `except` turns into a `None` return).  Returns the
function result paired with the trace of refresh/persist effects in the
order they happen. -/
def get_stored_credentials (tokenFile : Option TokenData) (scopes : List String)
    (now : Nat) (refreshOutcome : Option RefreshGrant) :
    Option Credentials × List AuthEvent :=
  match tokenFile with
  | Option.none => (Option.none, [])
  | some info =>
    let creds := fromAuthorizedUserInfo info scopes
    if credValid now creds then (some creds, [])
    else if credExpired now creds && creds.refresh_token.isSome then
      match refreshOutcome with
      | some g =>
        let refreshed := applyRefresh creds g
        (some refreshed, [.refreshCall, .saveFile refreshed])
      | Option.none => (Option.none, [.refreshCall])
    else (Option.none, [])

/-- Embeds `is_authenticated(scopes=None)` (google_auth.py lines 119-133):
a `None` scope argument defaults to `ALL_SCOPES`; the result is whether
`get_stored_credentials` returned a bundle. -/
def is_authenticated (scopes : Option (List String)) (tokenFile : Option TokenData)
    (now : Nat) (refreshOutcome : Option RefreshGrant) : Bool × List AuthEvent :=
  let s := scopes.getD ALL_SCOPES
  let r := get_stored_credentials tokenFile s now refreshOutcome
  (r.1.isSome, r.2)

/-- Python `str.strip()` over the default (ASCII) whitespace characters. -/
def pyIsSpace (c : Char) : Bool :=
  c = ' ' || c = '\t' || c = '\n' || c = '\r' || c = '\x0b' || c = '\x0c'

/-- Python `s.strip()`: drop leading and trailing whitespace. -/
def pyStrip (s : String) : String :=
  String.mk (((s.data.dropWhile pyIsSpace).reverse.dropWhile pyIsSpace).reverse)

/-- Python `sep in line` for a one-character separator. -/
def pyContains (c : Char) (s : String) : Bool := s.data.contains c

/-- Splitting of a character list at every occurrence of `sep`, keeping
empty pieces — the semantics of Python `str.split(sep)` with an explicit
one-character separator. -/
def pySplitList (sep : Char) : List Char → List (List Char)
  | [] => [[]]
  | c :: rest =>
    let r := pySplitList sep rest
    if c = sep then [] :: r
    else
      match r with
      | h :: t => (c :: h) :: t
      | [] => [[c]]

/-- Python `s.split(sep)` for a one-character separator (every separator in
this code — newline, comma, tab — is one character). -/
def pySplit (sep : Char) (s : String) : List String :=
  (pySplitList sep s.data).map String.mk

/-- Responses of the `POST /agent` endpoint. -/
inductive AgentResponse where
  | requiresAuth (response authUrl : String)
  | ok (response : String)
  | serverError (detail : String)
deriving DecidableEq, Repr

/-- Embeds `agent_chat` (main.py lines 239-265): gate on
`is_authenticated()` (no scope argument), then run the agent; an empty or
whitespace-only agent answer is replaced with a fixed completion message;
an exception becomes an HTTP 500. -/
def agent_chat (tokenFile : Option TokenData) (now : Nat)
    (refreshOutcome : Option RefreshGrant)
    (agentResult : Except String String) : AgentResponse :=
  if (is_authenticated Option.none tokenFile now refreshOutcome).1 = false then
    .requiresAuth
      "To use Google services (Docs, Sheets, Gmail), please authenticate first by visiting: http://localhost:8000/oauth/login"
      "http://localhost:8000/oauth/login"
  else
    match agentResult with
    | .error e => .serverError e
    | .ok r =>
      if r = "" || pyStrip r = "" then
        .ok "Task completed successfully. The requested operation was performed."
      else .ok r

/-- True exactly on the `requires_auth` response of `/agent`. -/
def AgentResponse.isRequiresAuth : AgentResponse → Bool
  | .requiresAuth _ _ => true
  | _ => false

/-- Scope coverage as the spec words it: every requested scope was granted. -/
def coversScopes (granted requested : List String) : Prop :=
  ∀ s ∈ requested, s ∈ granted

instance (granted requested : List String) :
    Decidable (coversScopes granted requested) :=
  List.decidableBAll _ requested

/-- Concrete MIME tree from the spec's own test vector: a `text/plain` part
nested under two multipart levels, with a sibling `text/html` part at the
top level. -/
def nestedPlainTree : MimePart :=
  .mk "multipart/mixed" Option.none (some
    [ .mk "multipart/alternative" Option.none (some
        [ .mk "text/plain" (some "PLAIN") Option.none ]),
      .mk "text/html" (some "HTML") Option.none ])

/-! ## Python exception model

Exceptions raised inside the embedded handlers.  Every constructor models a
subclass of Python's `Exception`, so a bare `except Exception` catches all of
them; `except HttpError` catches only `httpError`. -/

inductive PyExn where
  | httpError (msg : String)
  | httpException (status : Nat) (detail : String)
  | keyError (key : String)
  | exn (msg : String)
deriving DecidableEq, Repr

/-- Python `str(e)` on the exceptions above.  `str` of a FastAPI
`HTTPException` is `"{status}: {detail}"`; `str` of a `KeyError` is the
repr of the missing key. -/
def pyStrOfExn : PyExn → String
  | .httpError m => m
  | .httpException s d => toString s ++ ": " ++ d
  | .keyError k => "\x27" ++ k ++ "\x27"
  | .exn m => m

/-- HTTP result of an endpoint handler: a 200 response carrying a body, or
an error status with a detail message (a raised, uncaught `HTTPException`). -/
inductive HttpOutcome where
  | ok (response : String)
  | httpErrorResp (status : Nat) (detail : String)
deriving DecidableEq, Repr

/-- Status code of an endpoint outcome (a plain return is an HTTP 200). -/
def HttpOutcome.status : HttpOutcome → Nat
  | .ok _ => 200
  | .httpErrorResp s _ => s

/-! ## Google Sheets tools (`src/agent/tools/gsheets/gsheets_tools.py`)

Each tool `_run` is embedded as a function of its arguments and an
environment recording the outcome of each outbound Sheets API call; the
function returns the `Except`-monad result of the `try` body after the
`except` clauses have been applied, paired with the trace of API calls
issued.  The `except HttpError` / `except Exception` pair turns every
exception into an `.ok` error string. -/

inductive SheetsCall where
  | valuesGet (spreadsheetId rangeA1 : String)
  | valuesUpdate (spreadsheetId rangeA1 : String)
      (values : List (List PyVal)) (valueInputOption : String)
  | spreadsheetsGet (spreadsheetId : String)
deriving DecidableEq, Repr

/-- Environment of one Sheets tool invocation: whether
`get_sheets_service()` produced a service, and the outcome of the
`values().get` and `values().update` calls.  The inner `Option` models the
presence of the `values` / `updatedCells` key in the API response
(`result.get('values', [])`, `result.get('updatedCells', 0)`). -/
structure SheetsEnv where
  serviceAvailable : Bool
  getValues : Except PyExn (Option (List (List PyVal)))
  updateResult : Except PyExn (Option Nat)

/-- Shared service-unavailable message of the Sheets tools. -/
def sheetsAuthMsg : String :=
  "Google Sheets service is not available. Please authenticate first by visiting /oauth/login"

/-- Embeds an `except HttpError as error: return f\"{msgHead}{error}\"`
followed by `except Exception as e: return f\"An unexpected error occurred:
{str(e)}\"`. -/
def toolHandle (msgHead : String) : PyExn → Except PyExn String
  | .httpError m => .ok (msgHead ++ m)
  | e => .ok ("An unexpected error occurred: " ++ pyStrOfExn e)

/-- Embeds `AddRowGoogleSheetTool._run` (gsheets_tools.py lines 256-297):
read the whole existing range named by the sheet, compute
`next_row = len(current_values) + 1`, then write the new row at
`{sheet_name}!A{next_row}`. -/
def addRowRun (spreadsheet_id sheet_name : String) (values : List PyVal)
    (env : SheetsEnv) : Except PyExn String × List SheetsCall :=
  if env.serviceAvailable = false then (.ok sheetsAuthMsg, [])
  else
    let handle := toolHandle "An error occurred while adding a row to the spreadsheet: "
    let getCall := SheetsCall.valuesGet spreadsheet_id sheet_name
    match env.getValues with
    | .error e => (handle e, [getCall])
    | .ok vs =>
      let current_values := vs.getD []
      let next_row := current_values.length + 1
      let updCall := SheetsCall.valuesUpdate spreadsheet_id
        (sheet_name ++ "!A" ++ toString next_row) [values] "USER_ENTERED"
      match env.updateResult with
      | .error e => (handle e, [getCall, updCall])
      | .ok r =>
        let updated_cells := r.getD 0
        (.ok ("Successfully added a new row with " ++ toString updated_cells ++
          " cells to sheet " ++ sheet_name ++ "."), [getCall, updCall])

/-- Ranges of the update (write) calls in a trace. -/
def updateRanges (calls : List SheetsCall) : List String :=
  calls.filterMap fun c =>
    match c with
    | .valuesUpdate _ r _ _ => some r
    | _ => Option.none

/-! Table-formatting helpers of `ReadGoogleSheetTool._run` (gsheets_tools.py
lines 155-172).  Cells go through Python `str(.)` = `pyStr`. -/

/-- Embeds `max(len(row) for row in values)`. -/
def numCols (values : List (List PyVal)) : Nat :=
  (values.map List.length).foldr max 0

/-- Embeds `len(str(row[i])) if i < len(row) else 0`. -/
def cellLen (row : List PyVal) (i : Nat) : Nat :=
  match row.get? i with
  | some c => (pyStr c).length
  | Option.none => 0

/-- Embeds `max(len(str(row[i])) if i < len(row) else 0 for row in values)`. -/
def colWidth (values : List (List PyVal)) (i : Nat) : Nat :=
  (values.map (fun row => cellLen row i)).foldr max 0

/-- Embeds `col_widths` (one width per column index). -/
def col_widths (values : List (List PyVal)) : List Nat :=
  (List.range (numCols values)).map (colWidth values)

/-- Python `s.ljust(w)`: pad on the right with spaces up to width `w`. -/
def ljust (s : String) (w : Nat) : String :=
  s ++ String.mk (List.replicate (w - s.length) ' ')

/-- Embeds `str(row[i]).ljust(col_widths[i]) if i < len(row) else
"".ljust(col_widths[i])`. -/
def renderCell (row : List PyVal) (w i : Nat) : String :=
  if i < row.length then ljust (pyStr (row.getD i PyVal.none)) w else ljust "" w

/-- Embeds `" | ".join(... for i in range(len(col_widths)))`, as used both
for the header row and for each data row. -/
def renderRow (widths : List Nat) (row : List PyVal) : String :=
  String.intercalate " | "
    ((List.range widths.length).map fun i => renderCell row (widths.getD i 0) i)

/-- Embeds the header/data table rendering of `ReadGoogleSheetTool._run`
(the `include_headers and len(values) > 1` branch): header row, a dashed
rule of the header row's length, then one line per data row. -/
def formatValuesTable (values : List (List PyVal)) : String :=
  let widths := col_widths values
  let headers := values.headD []
  let data_rows := values.tail
  let header_row := renderRow widths headers
  header_row ++ "\n" ++ String.mk (List.replicate header_row.length '-') ++ "\n" ++
    String.join (data_rows.map fun row => renderRow widths row ++ "\n")

/-- Environment of a `ReadGoogleSheetTool._run` invocation; `titleInfo`
models `spreadsheets().get(...)` reduced to
`spreadsheet.get('properties', {}).get('title', 'Untitled')` (`none` when
the nested keys are absent). -/
structure ReadSheetEnv where
  serviceAvailable : Bool
  getValues : Except PyExn (Option (List (List PyVal)))
  titleInfo : Except PyExn (Option String)

/-- Embeds `ReadGoogleSheetTool._run` (gsheets_tools.py lines 122-186). -/
def readSheetRun (spreadsheet_id rangeA1 : String) (include_headers : Bool)
    (env : ReadSheetEnv) : Except PyExn String × List SheetsCall :=
  if env.serviceAvailable = false then (.ok sheetsAuthMsg, [])
  else
    let handle := toolHandle "An error occurred while reading the spreadsheet: "
    let getCall := SheetsCall.valuesGet spreadsheet_id rangeA1
    match env.getValues with
    | .error e => (handle e, [getCall])
    | .ok vs =>
      let values := vs.getD []
      if values = [] then (.ok "No data found in the specified range.", [getCall])
      else
        let infoCall := SheetsCall.spreadsheetsGet spreadsheet_id
        match env.titleInfo with
        | .error e => (handle e, [getCall, infoCall])
        | .ok t =>
          let title := t.getD "Untitled"
          let preamble := "Spreadsheet: " ++ title ++ "\n" ++
            "Range: " ++ rangeA1 ++ "\n\n"
          if include_headers ∧ 1 < values.length then
            (.ok (preamble ++ formatValuesTable values), [getCall, infoCall])
          else
            (.ok (preamble ++ String.join (values.map fun row =>
              String.intercalate " | " (row.map pyStr) ++ "\n")), [getCall, infoCall])

/-- Embeds the raw-input reparse step of `UpdateGoogleSheetTool._run`
(gsheets_tools.py lines 208-221): only when `raw_input` is set and `values`
is exactly a 1-by-1 array holding a single string does the reparse fire;
the string is stripped, split into lines, and each line split on commas,
else tabs, else kept whole.  Every other shape passes through unchanged. -/
def processRawValues (raw_input : Bool) (values : List (List PyVal)) :
    List (List PyVal) :=
  match raw_input, values with
  | true, [[PyVal.str raw_text]] =>
    (pySplit '\n' (pyStrip raw_text)).map fun line =>
      if pyContains ',' line then (pySplit ',' line).map PyVal.str
      else if pyContains '\t' line then (pySplit '\t' line).map PyVal.str
      else [PyVal.str line]
  | _, values => values

/-- Embeds `UpdateGoogleSheetTool._run` (gsheets_tools.py lines 198-247). -/
def updateSheetRun (spreadsheet_id rangeA1 : String) (values : List (List PyVal))
    (raw_input : Bool) (env : SheetsEnv) : Except PyExn String × List SheetsCall :=
  if env.serviceAvailable = false then (.ok sheetsAuthMsg, [])
  else
    let handle := toolHandle "An error occurred while updating the spreadsheet: "
    let vals := processRawValues raw_input values
    let updCall := SheetsCall.valuesUpdate spreadsheet_id rangeA1 vals "USER_ENTERED"
    match env.updateResult with
    | .error e => (handle e, [updCall])
    | .ok r =>
      (.ok ("Successfully updated " ++ toString (r.getD 0) ++
        " cells in range " ++ rangeA1 ++ "."), [updCall])

/-! ## Gmail send tool (`src/agent/tools/gmail/gmail_tools.py` lines 108-147) -/

/-- MIME message assembled by `create_message` (the library-side
serialization and base64url encoding are not observable here). -/
structure OutMessage where
  toAddr : String
  subject : String
  body : String
  cc : Option String
  bcc : Option String
  html : Bool
deriving DecidableEq, Repr

/-- Embeds `create_message(to, subject, body, cc, bcc, html)`. -/
def createMessage (toAddr subject body : String) (cc bcc : Option String)
    (html : Bool) : OutMessage :=
  { toAddr := toAddr, subject := subject, body := body, cc := cc, bcc := bcc, html := html }

/-- Environment of a `SendGmailTool._run` invocation; `sendResult` is the
outcome of `users().messages().send(...).execute()`, reduced to the value
at the response's `id` key (`none` when the key is absent, in which case
`result['id']` raises `KeyError`). -/
structure GmailSendEnv where
  serviceAvailable : Bool
  sendResult : Except PyExn (Option String)

/-- Service-unavailable message of the Gmail tools. -/
def gmailAuthMsg : String :=
  "Gmail service is not available. Please authenticate first by visiting /oauth/login"

/-- Body of the `try` block of `SendGmailTool._run`. -/
def sendGmailTry (toAddr subject body : String) (cc bcc : Option String)
    (html : Bool) (env : GmailSendEnv) : Except PyExn String :=
  if env.serviceAvailable = false then .ok gmailAuthMsg
  else
    let _message := createMessage toAddr subject body cc bcc html
    match env.sendResult with
    | .error e => .error e
    | .ok r =>
      match r with
      | some message_id =>
        .ok ("Email sent successfully to " ++ toAddr ++ ". Subject: \x27" ++ subject ++
          "\x27. Message ID: " ++ message_id)
      | Option.none => .error (.keyError "id")

/-- Embeds `SendGmailTool._run` (gmail_tools.py lines 113-143): the `try`
body with both `except` clauses applied. -/
def sendGmailRun (toAddr subject body : String) (cc bcc : Option String)
    (html : Bool) (env : GmailSendEnv) : Except PyExn String :=
  match sendGmailTry toAddr subject body cc bcc html env with
  | .ok s => .ok s
  | .error (.httpError m) => .ok ("An error occurred while sending email: " ++ m)
  | .error e => .ok ("An unexpected error occurred: " ++ pyStrOfExn e)

/-! ## HTTP endpoints (`src/main.py`) -/

/-- Multipart upload received by the document endpoints. -/
structure UploadedFile where
  content_type : String
  content : List Nat
deriving DecidableEq, Repr

/-- Content types accepted by `/upload-document` (main.py line 111). -/
def allowed_types : List String :=
  ["text/plain", "application/pdf",
   "application/vnd.openxmlformats-officedocument.wordprocessingml.document"]

/-- Lower-case hex digit of a value below 16. -/
def hexDigit (n : Nat) : String := String.mk [Nat.digitChar n]

/-- Python `repr`/f-string rendering of a `bytes` value: `b` plus a quoted
body; the quote is `'` unless the bytes contain `'` but no `"`; backslash
and the quote are escaped, tab/newline/carriage-return use short escapes, other
printable ASCII is literal, and everything else becomes `\xhh`. -/
def pyBytesRepr (bs : List Nat) : String :=
  let q : Nat := if bs.contains 39 && !(bs.contains 34) then 34 else 39
  let esc : Nat → String := fun b =>
    if b = 92 then "\\\\"
    else if b = q then "\\" ++ String.mk [Char.ofNat b]
    else if b = 9 then "\\t"
    else if b = 10 then "\\n"
    else if b = 13 then "\\r"
    else if 32 ≤ b && b ≤ 126 then String.mk [Char.ofNat b]
    else "\\x" ++ hexDigit (b / 16) ++ hexDigit (b % 16)
  "b" ++ String.mk [Char.ofNat q] ++ String.join (bs.map esc) ++ String.mk [Char.ofNat q]

/-- Embeds `upload_document` (main.py lines 107-147).  `decodeUtf8` stands
for `bytes.decode('utf-8')` (library code; it may raise).  Returns the HTTP
outcome paired with the user-message content sent to the model (`none` when
the model is never called).  Only a `text/plain` body is decoded; for the
other accepted types the raw bytes object itself is interpolated into the
prompt (`content` is never parsed), truncated to 10000 elements either way. -/
def upload_document (decodeUtf8 : List Nat → Except PyExn String)
    (file : UploadedFile) (aiResult : Except PyExn String) :
    HttpOutcome × Option String :=
  if file.content_type ∉ allowed_types then
    (.httpErrorResp 400 "File type not supported", Option.none)
  else
    let truncated : Except PyExn String :=
      if file.content_type = "text/plain" then
        match decodeUtf8 file.content with
        | .error e => .error e
        | .ok s => .ok (String.mk (s.data.take 10000))
      else .ok (pyBytesRepr (file.content.take 10000))
    match truncated with
    | .error e =>
      (.httpErrorResp 500 ("Error processing document: " ++ pyStrOfExn e), Option.none)
    | .ok t =>
      let sent := "Analyze the following document: " ++ t
      match aiResult with
      | .error e => (.httpErrorResp 500 ("AI model error: " ++ pyStrOfExn e), some sent)
      | .ok r => (.ok r, some sent)

/-- Success page returned by `/oauth/callback` (static HTML; markup
abbreviated to its headline). -/
def oauthSuccessHtml : String := "Authentication Successful!"

/-- Failure page returned by `/oauth/callback`, embedding `str(e)` (markup
abbreviated to its headline and the interpolated error). -/
def oauthFailureHtml (msg : String) : String :=
  "Authentication Failed Error: " ++ msg

/-- Body of the `try` block of `oauth_callback` (main.py lines 294-324):
a missing `code` query parameter raises `HTTPException(400)`; otherwise the
code is exchanged (`flow.fetch_token`, an outbound call whose outcome is
`exchange`) and the resulting credentials are persisted. -/
def oauthCallbackTry (code : Option String)
    (exchange : Except PyExn Credentials) :
    Except PyExn (String × List AuthEvent) :=
  match code with
  | Option.none => .error (.httpException 400 "Authorization code not found")
  | some _ =>
    match exchange with
    | .error e => .error e
    | .ok creds => .ok (oauthSuccessHtml, [AuthEvent.saveFile creds])

/-- Embeds `oauth_callback` (main.py lines 289-336).  The handler's single
`except Exception` clause catches every exception — including the
`HTTPException(400)` it raised itself — and returns the failure page as an
ordinary string, which FastAPI serves with status 200. -/
def oauth_callback (code : Option String)
    (exchange : Except PyExn Credentials) : HttpOutcome × List AuthEvent :=
  match oauthCallbackTry code exchange with
  | .ok (body, tr) => (.ok body, tr)
  | .error e => (.ok (oauthFailureHtml (pyStrOfExn e)), [])

/-- Raw-input reparse as claim C10 words it (split the string as supplied —
no stripping).  Stated from the claim for refinement comparison only; the
code-derived definition is `processRawValues`. -/
def claimedRawParse (raw_text : String) : List (List PyVal) :=
  (pySplit '\n' raw_text).map fun line =>
    if pyContains ',' line then (pySplit ',' line).map PyVal.str
    else if pyContains '\t' line then (pySplit '\t' line).map PyVal.str
    else [PyVal.str line]

/-- When no immediate part is a `text/plain` part carrying data and the
accumulator is already non-empty, the loop leaves the accumulator alone. -/
lemma extractLoop_fixed (decode : String → String) (b : String) (hb : b ≠ "")
    (ps : List MimePart) (hp : firstPlainData ps = Option.none) :
    extractLoop decode b ps = b := by
  induction ps with
  | nil => rfl
  | cons p rest ih =>
    simp only [firstPlainData] at hp
    by_cases h1 : p.mimeType = "text/plain"
    · rcases hd : p.data with _ | d
      · simp only [extractLoop, if_pos h1, hd]
        refine ih ?_
        rcases hc : firstPlainData rest with _ | d
        · rfl
        · rw [if_neg (by simp [h1, hd]), hc] at hp
          exact absurd hp (by simp)
      · rw [if_pos (by simp [h1, hd]), hd] at hp
        exact absurd hp (by simp)
    · have h2 : ¬ (p.mimeType = "text/plain" ∧ p.data.isSome = true) := by
        intro h; exact h1 h.1
      rw [if_neg h2] at hp
      by_cases h3 : p.mimeType = "text/html" ∧ b = ""
      · exact absurd h3.2 hb
      · simp only [extractLoop, if_neg h1, if_neg h3]
        exact ih hp

/-- The loop returns the decoded data of the first immediate `text/plain`
part carrying data, regardless of the accumulator. -/
lemma extractLoop_plain (decode : String → String) (b : String)
    (ps : List MimePart) (d : String) (hp : firstPlainData ps = some d) :
    extractLoop decode b ps = decode d := by
  induction ps generalizing b with
  | nil => exact absurd hp (by simp [firstPlainData])
  | cons p rest ih =>
    simp only [firstPlainData] at hp
    by_cases h1 : p.mimeType = "text/plain"
    · rcases hd : p.data with _ | d0
      · rw [if_neg (by simp [hd]), ] at hp
        simp only [extractLoop, if_pos h1, hd]
        exact ih b hp
      · rw [if_pos (by simp [h1, hd]), hd] at hp
        simp only [extractLoop, if_pos h1, hd]
        injection hp with h; rw [h]
    · have h2 : ¬ (p.mimeType = "text/plain" ∧ p.data.isSome = true) := by
        intro h; exact h1 h.1
      rw [if_neg h2] at hp
      by_cases h3 : p.mimeType = "text/html" ∧ b = ""
      · rcases hd : p.data with _ | d0
        · simp only [extractLoop, if_neg h1, if_pos h3, hd]
          exact ih b hp
        · simp only [extractLoop, if_neg h1, if_pos h3, hd]
          exact ih (decode d0) hp
      · simp only [extractLoop, if_neg h1, if_neg h3]
        exact ih b hp

/-- With no immediate `text/plain` part carrying data, the loop started on an
empty accumulator returns the decoded data of the first immediate `text/html`
part carrying data, provided that data decodes to a non-empty string. -/
lemma extractLoop_html (decode : String → String)
    (ps : List MimePart) (d : String)
    (hp : firstPlainData ps = Option.none) (hh : firstHtmlData ps = some d)
    (hd : decode d ≠ "") :
    extractLoop decode "" ps = decode d := by
  induction ps with
  | nil => exact absurd hh (by simp [firstHtmlData])
  | cons p rest ih =>
    simp only [firstPlainData] at hp
    simp only [firstHtmlData] at hh
    by_cases h1 : p.mimeType = "text/plain"
    · have hph : ¬ p.mimeType = "text/html" := by rw [h1]; decide
      rw [if_neg (fun h => hph h.1)] at hh
      rcases hpd : p.data with _ | d0
      · rw [if_neg (by simp [hpd])] at hp
        simp only [extractLoop, if_pos h1, hpd]
        exact ih hp hh
      · rw [if_pos ⟨h1, by simp [hpd]⟩, hpd] at hp
        exact absurd hp (by simp)
    · rw [if_neg (fun h => h1 h.1)] at hp
      by_cases hH : p.mimeType = "text/html"
      · rcases hpd : p.data with _ | d0
        · rw [if_neg (by simp [hpd])] at hh
          have step : extractLoop decode "" (p :: rest) = extractLoop decode "" rest := by
            simp [extractLoop, h1, hH, hpd]
          rw [step]
          exact ih hp hh
        · have hc : p.mimeType = "text/html" ∧ p.data.isSome = true := ⟨hH, by simp [hpd]⟩
          rw [if_pos hc, hpd] at hh
          injection hh with hh
          subst hh
          have step : extractLoop decode "" (p :: rest) = extractLoop decode (decode d0) rest := by
            simp [extractLoop, h1, hH, hpd]
          rw [step]
          exact extractLoop_fixed decode (decode d0) hd rest hp
      · rw [if_neg (fun h => hH h.1)] at hh
        have step : extractLoop decode "" (p :: rest) = extractLoop decode "" rest := by
          simp [extractLoop, h1, hH]
        rw [step]
        exact ih hp hh

/-- Every member of a list of naturals is bounded by its `foldr max 0`. -/
lemma le_foldr_max (l : List Nat) (x : Nat) (hx : x ∈ l) : x ≤ l.foldr max 0 := by
  induction l with
  | nil => cases hx
  | cons a t ih =>
    rcases List.mem_cons.mp hx with h | h
    · subst h; exact Nat.le_max_left _ _
    · exact le_trans (ih h) (Nat.le_max_right _ _)

/-- On a non-empty list of naturals, `foldr max 0` is attained. -/
lemma foldr_max_mem (l : List Nat) (h : l ≠ []) : l.foldr max 0 ∈ l := by
  induction l with
  | nil => exact absurd rfl h
  | cons a t ih =>
    cases t with
    | nil => simp
    | cons b t2 =>
      rcases max_choice a ((b :: t2).foldr max 0) with hm | hm
      · simp only [List.foldr_cons] at hm ⊢
        rw [hm]
        exact List.mem_cons_self _ _
      · simp only [List.foldr_cons] at hm ⊢
        rw [hm]
        exact List.mem_cons_of_mem _ (ih (by simp))

/-- Length of Python-style right padding. -/
lemma ljust_length (s : String) (w : Nat) :
    (ljust s w).length = s.length + (w - s.length) := by
  simp [ljust]

/-- C1: the claim that read-mail "full" extraction finds the first
`text/plain` part by depth-first traversal of the whole MIME tree fails on
the code: `extract_email_body` inspects only the immediate children of the
top-level payload, so on the spec's own vector — a `text/plain` part nested
under two multipart levels beside a top-level `text/html` part — it returns
the HTML content, not the nested plain text. -/
theorem C1_counterexample :
    extract_email_body id nestedPlainTree = "HTML" ∧
    extract_email_body id nestedPlainTree ≠ "PLAIN" := by
  refine ⟨rfl, by decide⟩

/-- C1 (amended): extraction looks only at the immediate children of the
payload: it returns the decoded data of the first immediate `text/plain`
child carrying data; when no such child exists, the decoded data of the
first immediate `text/html` child carrying data (provided it decodes to a
non-empty string); nested parts are never examined, so the doubly nested
plain-text vector yields the sibling HTML content. -/
theorem C1_extract_email_body_immediate (decode : String → String)
    (mt : String) (bd : Option String) (ps : List MimePart) :
    (∀ d, firstPlainData ps = some d →
      extract_email_body decode (.mk mt bd (some ps)) = decode d) ∧
    (∀ d, firstPlainData ps = Option.none → firstHtmlData ps = some d →
      decode d ≠ "" →
      extract_email_body decode (.mk mt bd (some ps)) = decode d) ∧
    extract_email_body id nestedPlainTree = "HTML" := by
  refine ⟨fun d hp => ?_, fun d hp hh hd => ?_, rfl⟩
  · simpa [extract_email_body, MimePart.subparts] using
      extractLoop_plain decode "" ps d hp
  · simpa [extract_email_body, MimePart.subparts] using
      extractLoop_html decode ps d hp hh hd

/-- Witness for the amended C1 theorem at two concrete flat payloads: a
plain part wins even after an html sibling; with no plain part carrying
data, the html part is used. -/
theorem C1_witness :
    extract_email_body id (.mk "multipart/alternative" Option.none
      (some [.mk "text/html" (some "H") Option.none,
             .mk "text/plain" (some "P") Option.none])) = "P" ∧
    extract_email_body id (.mk "multipart/alternative" Option.none
      (some [.mk "text/plain" Option.none Option.none,
             .mk "text/html" (some "H") Option.none])) = "H" :=
  ⟨(C1_extract_email_body_immediate id "multipart/alternative" Option.none
      [.mk "text/html" (some "H") Option.none,
       .mk "text/plain" (some "P") Option.none]).1 "P" (by decide),
   (C1_extract_email_body_immediate id "multipart/alternative" Option.none
      [.mk "text/plain" Option.none Option.none,
       .mk "text/html" (some "H") Option.none]).2.1 "H" (by decide) (by decide)
     (by decide)⟩

/-- Projection of the library constructor: the token field is the stored one. -/
lemma fromInfo_token (info : TokenData) (s : List String) :
    (fromAuthorizedUserInfo info s).token = info.token := rfl

/-- Projection of the library constructor: the refresh token is the stored one. -/
lemma fromInfo_refresh_token (info : TokenData) (s : List String) :
    (fromAuthorizedUserInfo info s).refresh_token = info.refresh_token := rfl

/-- C2: three-case postcondition of the credential load.  With the access
token present and unexpired, the stored bundle is returned as parsed, with
no refresh and no write.  With the token expired and a refresh token
present, exactly one refresh exchange is invoked, and when it succeeds the
refreshed bundle is persisted (the `saveFile` event) before being returned.
With the token expired and no refresh token, the load returns absent
without any refresh. -/
theorem C2_get_stored_credentials_cases (info : TokenData) (scopes : List String)
    (now : Nat) (refreshOutcome : Option RefreshGrant) :
    (info.token.isSome = true →
      credExpired now (fromAuthorizedUserInfo info scopes) = false →
      get_stored_credentials (some info) scopes now refreshOutcome =
        (some (fromAuthorizedUserInfo info scopes), [])) ∧
    (credExpired now (fromAuthorizedUserInfo info scopes) = true →
      info.refresh_token.isSome = true →
      ((get_stored_credentials (some info) scopes now refreshOutcome).2.count
          AuthEvent.refreshCall = 1 ∧
        ∀ g, refreshOutcome = some g →
          get_stored_credentials (some info) scopes now refreshOutcome =
            (some (applyRefresh (fromAuthorizedUserInfo info scopes) g),
             [AuthEvent.refreshCall,
              AuthEvent.saveFile (applyRefresh (fromAuthorizedUserInfo info scopes) g)]))) ∧
    (credExpired now (fromAuthorizedUserInfo info scopes) = true →
      info.refresh_token = Option.none →
      get_stored_credentials (some info) scopes now refreshOutcome =
        (Option.none, [])) := by
  refine ⟨fun htok hexp => ?_, fun hexp href => ?_, fun hexp hrt => ?_⟩
  · have hc : credValid now (fromAuthorizedUserInfo info scopes) = true := by
      simp [credValid, fromInfo_token, htok, hexp]
    simp [get_stored_credentials, hc]
  · have hc : credValid now (fromAuthorizedUserInfo info scopes) = false := by
      simp [credValid, hexp]
    have hc2 : (credExpired now (fromAuthorizedUserInfo info scopes) &&
        (fromAuthorizedUserInfo info scopes).refresh_token.isSome) = true := by
      simp [hexp, fromInfo_refresh_token, href]
    constructor
    · cases refreshOutcome with
      | none => simp [get_stored_credentials, hc, hc2]
      | some gr => simp [get_stored_credentials, hc, hc2]
    · intro g hg
      subst hg
      simp [get_stored_credentials, hc, hc2]
  · have hc : credValid now (fromAuthorizedUserInfo info scopes) = false := by
      simp [credValid, hexp]
    have hc2 : (credExpired now (fromAuthorizedUserInfo info scopes) &&
        (fromAuthorizedUserInfo info scopes).refresh_token.isSome) = false := by
      simp [fromInfo_refresh_token, hrt]
    simp [get_stored_credentials, hc, hc2]

/-- Witness for C2: the three cases evaluated on concrete bundles (a fresh
token at time 0, the same bundle expired at time 200 with a successful
refresh, and an expired bundle without a refresh token). -/
theorem C2_witness :
    get_stored_credentials (some ⟨some "tok", some "ref", some 100, ["s"]⟩)
        ["s"] 0 Option.none =
      (some ⟨some "tok", some "ref", some 100, ["s"]⟩, []) ∧
    get_stored_credentials (some ⟨some "tok", some "ref", some 100, ["s"]⟩)
        ["s"] 200 (some ⟨"tok2", some 300, Option.none⟩) =
      (some ⟨some "tok2", some "ref", some 300, ["s"]⟩,
       [AuthEvent.refreshCall,
        AuthEvent.saveFile ⟨some "tok2", some "ref", some 300, ["s"]⟩]) ∧
    get_stored_credentials (some ⟨some "tok", Option.none, some 100, ["s"]⟩)
        ["s"] 200 Option.none =
      (Option.none, []) := by
  refine ⟨?_, ?_, ?_⟩
  · exact (C2_get_stored_credentials_cases ⟨some "tok", some "ref", some 100, ["s"]⟩
      ["s"] 0 Option.none).1 rfl (by decide)
  · exact ((C2_get_stored_credentials_cases ⟨some "tok", some "ref", some 100, ["s"]⟩
      ["s"] 200 (some ⟨"tok2", some 300, Option.none⟩)).2.1 (by decide) rfl).2
      ⟨"tok2", some 300, Option.none⟩ rfl
  · exact (C2_get_stored_credentials_cases ⟨some "tok", Option.none, some 100, ["s"]⟩
      ["s"] 200 Option.none).2.2 (by decide) rfl

/-- C3 counterexample: a stored bundle granted only a gmail scope but
holding a valid access token is returned for a non-empty request that is
not a subset of the granted scopes; the claim says the load must return
absent there. -/
theorem C3_counterexample :
    ((get_stored_credentials
        (some ⟨some "tok", some "ref", some 100,
          ["https://www.googleapis.com/auth/gmail.send"]⟩)
        ["https://www.googleapis.com/auth/spreadsheets"] 0 Option.none).1.isSome
      = true) ∧
    ¬ coversScopes ["https://www.googleapis.com/auth/gmail.send"]
        ["https://www.googleapis.com/auth/spreadsheets"] ∧
    ["https://www.googleapis.com/auth/spreadsheets"] ≠ ([] : List String) := by
  refine ⟨rfl, by decide, by decide⟩

/-- C3 (amended): the load performs no scope-coverage comparison at all:
whether a bundle is returned does not depend on the requested scope set,
and a stored bundle with a present, unexpired access token is returned for
every request — including requests that are not subsets of the stored
granted scopes. -/
theorem C3_no_scope_coverage_check (tokenFile : Option TokenData) (now : Nat)
    (g : Option RefreshGrant) (req req2 : List String) :
    ((get_stored_credentials tokenFile req now g).1.isSome =
      (get_stored_credentials tokenFile req2 now g).1.isSome) ∧
    (∀ info, tokenFile = some info → info.token.isSome = true →
      credExpired now (fromAuthorizedUserInfo info req) = false →
      (get_stored_credentials tokenFile req now g).1 =
        some (fromAuthorizedUserInfo info req)) := by
  constructor
  · cases tokenFile with
    | none => rfl
    | some info =>
      obtain ⟨tok, rtok, exp, sc⟩ := info
      cases exp with
      | none =>
        cases tok <;>
          simp [get_stored_credentials, credValid, credExpired, fromAuthorizedUserInfo]
      | some t =>
        by_cases ht : t ≤ now
        · cases tok <;> cases rtok <;> cases g <;>
            simp [get_stored_credentials, credValid, credExpired,
              fromAuthorizedUserInfo, ht]
        · cases tok <;>
            simp [get_stored_credentials, credValid, credExpired,
              fromAuthorizedUserInfo, ht]
  · intro info hfile htok hexp
    subst hfile
    have hc : credValid now (fromAuthorizedUserInfo info req) = true := by
      simp [credValid, fromInfo_token, htok, hexp]
    simp [get_stored_credentials, hc]

/-- Witness for the amended C3 theorem: a bundle granted only scope `a`,
loaded under the non-covered request `b`, is returned (with the requested
scopes recorded on the credentials object, as the library constructor
does). -/
theorem C3_witness :
    (get_stored_credentials (some ⟨some "tok", some "ref", some 100, ["a"]⟩)
        ["b"] 0 Option.none).1 =
      some ⟨some "tok", some "ref", some 100, ["b"]⟩ :=
  (C3_no_scope_coverage_check (some ⟨some "tok", some "ref", some 100, ["a"]⟩)
    0 Option.none ["b"] ["a"]).2 ⟨some "tok", some "ref", some 100, ["a"]⟩
    rfl rfl (by decide)

/-- C4 (code bug): a GET to /oauth/callback without a `code` query parameter
does raise `HTTPException(400, "Authorization code not found")` inside the
handler, but the handler's own blanket `except Exception` catches it and
returns the failure page as an ordinary response.  The endpoint therefore
answers HTTP 200 with the error embedded in the HTML body — not HTTP 400 as
the claim states. -/
theorem C4_callback_missing_code :
    oauth_callback Option.none (.ok ⟨some "t", some "r", some 1, []⟩) =
      (.ok (oauthFailureHtml "400: Authorization code not found"), []) ∧
    (oauth_callback Option.none (.ok ⟨some "t", some "r", some 1, []⟩)).1.status
      = 200 ∧
    (oauth_callback Option.none (.ok ⟨some "t", some "r", some 1, []⟩)).1.status
      ≠ 400 := by
  refine ⟨rfl, rfl, by decide⟩

/-- C5: tool failures are data, never exceptions: for every argument vector
and every environment (service unavailable, upstream `HttpError`, any other
exception, a missing `id`/`updatedCells` key), the embedded `_run` bodies of
the send-mail and add-row tools return an `.ok` outcome string; no exception
value escapes the tool boundary. -/
theorem C5_tools_never_raise (toAddr subject body : String) (cc bcc : Option String)
    (html : Bool) (genv : GmailSendEnv)
    (sid sheet : String) (vals : List PyVal) (senv : SheetsEnv) :
    (sendGmailRun toAddr subject body cc bcc html genv).isOk = true ∧
    ((addRowRun sid sheet vals senv).1).isOk = true := by
  constructor
  · cases h : sendGmailTry toAddr subject body cc bcc html genv with
    | ok s => simp [sendGmailRun, h, Except.isOk, Except.toBool]
    | error e => cases e <;> simp [sendGmailRun, h, Except.isOk, Except.toBool]
  · by_cases hs : senv.serviceAvailable = false
    · simp [addRowRun, hs, Except.isOk, Except.toBool]
    · cases hget : senv.getValues with
      | error e =>
        cases e <;> simp [addRowRun, hs, hget, toolHandle, Except.isOk, Except.toBool]
      | ok vs =>
        cases hupd : senv.updateResult with
        | error e =>
          cases e <;> simp [addRowRun, hs, hget, hupd, toolHandle, Except.isOk, Except.toBool]
        | ok r => simp [addRowRun, hs, hget, hupd, Except.isOk, Except.toBool]

/-- C6: the append-row tool first reads the whole existing range (the bare
sheet name), computes the target row as `k+1` from the `k` rows the read
returned, and then issues the write at `{sheet}!A{k+1}`; the target depends
only on the read, so two appends computed from the same stale read write to
the same row regardless of their values. -/
theorem C6_addRow_next_index (sid sheet : String) (vals : List PyVal)
    (senv : SheetsEnv) (rows : List (List PyVal))
    (hs : senv.serviceAvailable = true)
    (hget : senv.getValues = .ok (some rows)) :
    (addRowRun sid sheet vals senv).2 =
      [SheetsCall.valuesGet sid sheet,
       SheetsCall.valuesUpdate sid (sheet ++ "!A" ++ toString (rows.length + 1))
         [vals] "USER_ENTERED"] ∧
    (∀ vals2, updateRanges (addRowRun sid sheet vals senv).2 =
      updateRanges (addRowRun sid sheet vals2 senv).2) := by
  have key : ∀ v : List PyVal, (addRowRun sid sheet v senv).2 =
      [SheetsCall.valuesGet sid sheet,
       SheetsCall.valuesUpdate sid (sheet ++ "!A" ++ toString (rows.length + 1))
         [v] "USER_ENTERED"] := by
    intro v
    cases hupd : senv.updateResult with
    | error e => simp [addRowRun, hs, hget, hupd]
    | ok r => simp [addRowRun, hs, hget, hupd]
  exact ⟨key vals, fun vals2 => by rw [key vals, key vals2]; simp [updateRanges]⟩

/-- Witness for C6: appending to a sheet read back with two populated rows
targets `Sheet1!A3`, for two different appended values alike. -/
theorem C6_witness :
    (addRowRun "id1" "Sheet1" [PyVal.str "x"]
      ⟨true, .ok (some [[PyVal.str "a"], [PyVal.str "b"]]), .ok (some 1)⟩).2 =
      [SheetsCall.valuesGet "id1" "Sheet1",
       SheetsCall.valuesUpdate "id1" "Sheet1!A3" [[PyVal.str "x"]] "USER_ENTERED"] ∧
    updateRanges (addRowRun "id1" "Sheet1" [PyVal.str "x"]
        ⟨true, .ok (some [[PyVal.str "a"], [PyVal.str "b"]]), .ok (some 1)⟩).2 =
      updateRanges (addRowRun "id1" "Sheet1" [PyVal.str "y"]
        ⟨true, .ok (some [[PyVal.str "a"], [PyVal.str "b"]]), .ok (some 1)⟩).2 := by
  have h := C6_addRow_next_index "id1" "Sheet1" [PyVal.str "x"]
    ⟨true, .ok (some [[PyVal.str "a"], [PyVal.str "b"]]), .ok (some 1)⟩
    [[PyVal.str "a"], [PyVal.str "b"]] rfl rfl
  exact ⟨h.1.trans (by decide), h.2 [PyVal.str "y"]⟩

/-- C7: the table-formatting contract of read-spreadsheet.  For every row of
the fetched values and every column index: the column width bounds the
rendered cell length at that index; the width is attained by some row
(including the header, which is `values[0]`); every rendered field is
exactly the column width wide; a row with no cell at that index renders as
spaces of the column width; `col_widths` lists exactly these widths; and in
the headers branch (headers requested, more than one row) the run output is
the preamble plus the table rendered from these widths. -/
theorem C7_table_formatting (values : List (List PyVal)) (i : Nat)
    (row : List PyVal) (hrow : row ∈ values) :
    (cellLen row i ≤ colWidth values i) ∧
    (∃ r ∈ values, colWidth values i = cellLen r i) ∧
    ((renderCell row (colWidth values i) i).length = colWidth values i) ∧
    (row.length ≤ i →
      renderCell row (colWidth values i) i =
        String.mk (List.replicate (colWidth values i) ' ')) ∧
    (i < numCols values → (col_widths values).getD i 0 = colWidth values i) ∧
    (∀ sid r env title, env.serviceAvailable = true →
      env.getValues = .ok (some values) → env.titleInfo = .ok (some title) →
      1 < values.length →
      (readSheetRun sid r true env).1 =
        .ok ("Spreadsheet: " ++ title ++ "\n" ++ "Range: " ++ r ++ "\n\n" ++
          formatValuesTable values)) := by
  have hb : cellLen row i ≤ colWidth values i :=
    le_foldr_max _ _ (List.mem_map_of_mem _ hrow)
  refine ⟨hb, ?_, ?_, ?_, ?_, ?_⟩
  · have hne : values.map (fun r => cellLen r i) ≠ [] := by
      intro h
      rw [List.map_eq_nil_iff] at h
      subst h
      cases hrow
    have hmem := foldr_max_mem _ hne
    rcases List.mem_map.mp hmem with ⟨r, hr, heq⟩
    exact ⟨r, hr, heq.symm⟩
  · by_cases hlt : i < row.length
    · have hge : row[i]? = some row[i] := List.getElem?_eq_getElem hlt
      have hgd : row.getD i PyVal.none = row[i] := by
        simp [List.getD, hge]
      have hcl : cellLen row i = (pyStr row[i]).length := by
        simp [cellLen, List.get?_eq_getElem?, hge]
      have hcl2 : (pyStr (row.getD i PyVal.none)).length ≤ colWidth values i := by
        rw [hgd, ← hcl]; exact hb
      simp only [renderCell, if_pos hlt, ljust_length]
      omega
    · simp only [renderCell, if_neg hlt, ljust_length]
      simp
  · intro hni
    have hlt : ¬ i < row.length := by omega
    simp only [renderCell, if_neg hlt, ljust]
    have h0 : colWidth values i - ("" : String).length = colWidth values i := by simp
    rw [h0]
    apply congrArg String.mk
    simp
  · intro hi
    simp [col_widths, List.getD, List.getElem?_map, List.getElem?_range hi]
  · intro sid r env title hsv hgv htv hlen
    have hne : ¬ (values = []) := by
      intro h
      rw [h] at hlen
      simp at hlen
    simp [readSheetRun, hsv, hgv, htv, hne, hlen]

/-- Witness for C7 on a concrete ragged table: the short row renders a
blank field five spaces wide in the widest column (width set by another
row), and the run output in the headers branch is the rendered table. -/
theorem C7_witness :
    renderCell [PyVal.str "alice"]
        (colWidth [[PyVal.str "name", PyVal.str "qty"], [PyVal.str "alice"],
          [PyVal.str "b", PyVal.str "12345"]] 1) 1 =
      String.mk (List.replicate 5 ' ') ∧
    (readSheetRun "sid" "A1:B3" true
        ⟨true, .ok (some [[PyVal.str "name", PyVal.str "qty"], [PyVal.str "alice"],
          [PyVal.str "b", PyVal.str "12345"]]), .ok (some "T")⟩).1 =
      .ok ("Spreadsheet: " ++ "T" ++ "\n" ++ "Range: " ++ "A1:B3" ++ "\n\n" ++
        formatValuesTable [[PyVal.str "name", PyVal.str "qty"], [PyVal.str "alice"],
          [PyVal.str "b", PyVal.str "12345"]]) := by
  have h := C7_table_formatting
    [[PyVal.str "name", PyVal.str "qty"], [PyVal.str "alice"],
     [PyVal.str "b", PyVal.str "12345"]] 1 [PyVal.str "alice"] (by simp)
  constructor
  · exact (h.2.2.2.1 (by decide)).trans (by decide)
  · exact h.2.2.2.2.2 "sid" "A1:B3"
      ⟨true, .ok (some [[PyVal.str "name", PyVal.str "qty"], [PyVal.str "alice"],
        [PyVal.str "b", PyVal.str "12345"]]), .ok (some "T")⟩ "T" rfl rfl rfl
      (by decide)

/-- C8 (code bug): the 400-on-unsupported-type half of the claim holds, but
the "extracted/decoded text is sent" half fails for PDF and DOCX: the
handler never invokes any extraction for those types (its own comment says
the parsing logic is still needed), so the prompt interpolates the Python
repr of the raw bytes, truncated to 10000 bytes.  Evaluated at a concrete
PDF upload and at an unsupported content type. -/
theorem C8_upload_document_sends_raw_bytes :
    upload_document (fun _ => .ok "")
      ⟨"application/pdf", [37, 80, 68, 70, 45, 49, 46, 52, 32, 104, 101, 108, 108, 111]⟩
      (.ok "summary") =
      (.ok "summary",
       some ("Analyze the following document: b\x27%PDF-1.4 hello\x27")) ∧
    upload_document (fun _ => .ok "") ⟨"image/png", []⟩ (.ok "summary") =
      (.httpErrorResp 400 "File type not supported", Option.none) := by
  refine ⟨by decide, by decide⟩

/-- C9 counterexample: a stored bundle granted only the gmail scopes (so not
covering the combined docs/mail/sheets/drive set) with a valid access token:
`/agent` answers with the agent's response, not with the requires_auth
response, because the load never compares granted scopes with the requested
combined set. -/
theorem C9_counterexample :
    agent_chat (some ⟨some "tok", some "ref", some 100, GMAIL_SCOPES⟩) 0
        Option.none (.ok "done") = .ok "done" ∧
    ¬ coversScopes GMAIL_SCOPES ALL_SCOPES := by
  refine ⟨by decide, by decide⟩

/-- C9 (amended): the no-argument authentication check does default to the
full combined scope set, but coverage of that set is never enforced: /agent
returns the requires_auth response exactly when the load under `ALL_SCOPES`
returns absent (file missing, or token invalid and not refreshable) — for
every prompt, independent of whether the stored granted scopes cover the
combined set. -/
theorem C9_requires_auth_iff (tokenFile : Option TokenData) (now : Nat)
    (g : Option RefreshGrant) (agentResult : Except String String) :
    (agent_chat tokenFile now g agentResult).isRequiresAuth =
      (get_stored_credentials tokenFile ALL_SCOPES now g).1.isNone := by
  cases h : (get_stored_credentials tokenFile ALL_SCOPES now g).1 with
  | none =>
    simp [agent_chat, is_authenticated, h, AgentResponse.isRequiresAuth]
  | some c =>
    cases agentResult with
    | error e =>
      simp [agent_chat, is_authenticated, h, AgentResponse.isRequiresAuth]
    | ok r =>
      by_cases hc : (r = "" ∨ pyStrip r = "")
      · simp [agent_chat, is_authenticated, h, AgentResponse.isRequiresAuth, hc]
      · simp [agent_chat, is_authenticated, h, AgentResponse.isRequiresAuth, hc]

/-- C10 counterexample: the reparse strips the raw string before splitting;
the claim's description splits the supplied string as-is.  On the 1-by-1
input " x" the code writes [["x"]], the claimed parse yields [[" x"]]. -/
theorem C10_counterexample :
    processRawValues true [[PyVal.str " x"]] = [[PyVal.str "x"]] ∧
    claimedRawParse " x" = [[PyVal.str " x"]] ∧
    processRawValues true [[PyVal.str " x"]] ≠ claimedRawParse " x" := by
  refine ⟨by decide, by decide, by decide⟩

/-- C10 (amended): with raw_input set and values exactly a 1-by-1 array
holding a single string, the string is first stripped of leading and
trailing whitespace and then reparsed as the claim describes (lines on
newlines; a line splits on commas if it has one, else on tabs if it has
one, else stays a one-cell row); with raw_input unset, or for every other
shape of values, the values pass through unchanged. -/
theorem C10_processRawValues (values : List (List PyVal)) (raw_input : Bool) :
    (∀ s, raw_input = true → values = [[PyVal.str s]] →
      processRawValues raw_input values = claimedRawParse (pyStrip s)) ∧
    (raw_input = false → processRawValues raw_input values = values) ∧
    ((∀ s, values ≠ [[PyVal.str s]]) →
      processRawValues raw_input values = values) := by
  refine ⟨fun s hraw hv => ?_, fun hraw => ?_, fun hshape => ?_⟩
  · subst hraw
    subst hv
    rfl
  · subst hraw
    rfl
  · cases raw_input with
    | false => rfl
    | true =>
      match values, hshape with
      | [], _ => rfl
      | ([] :: t), _ => rfl
      | ((PyVal.str s :: c2 :: t2) :: t), _ => rfl
      | ((PyVal.int n :: t2) :: t), _ => rfl
      | ((PyVal.none :: t2) :: t), _ => rfl
      | ([PyVal.str s] :: r2 :: t), _ => rfl
      | [[PyVal.str s]], hshape => exact absurd rfl (hshape s)

/-- Witness for the amended C10 theorem: the reparse at a concrete raw
string (comma line and plain line), and pass-through at a two-row value. -/
theorem C10_witness :
    processRawValues true [[PyVal.str "a,b\nc"]] =
      claimedRawParse (pyStrip "a,b\nc") ∧
    processRawValues true [[PyVal.str "a"], [PyVal.str "b"]] =
      [[PyVal.str "a"], [PyVal.str "b"]] := by
  constructor
  · exact (C10_processRawValues [[PyVal.str "a,b\nc"]] true).1 "a,b\nc" rfl rfl
  · refine (C10_processRawValues [[PyVal.str "a"], [PyVal.str "b"]] true).2.2 ?_
    intro s h
    simpa using congrArg List.length h
